import Mathlib

/-!
Shallow embedding of `gen_cert.py`, a script that generates a PDF
wipe certificate for a data-sanitization operation.

The script's effectful surface (the `lsblk` subprocess, `os.getlogin`,
`socket.gethostname`, `datetime.now`, and the WeasyPrint `write_pdf`
call) is modelled by an explicit environment record `Env` holding the
outcome of each external interaction; the rest of the script is pure
string construction and is translated directly.

Python's `str.lower()` / `str.upper()` are modelled by mapping the
ASCII case conversions `Char.toLower` / `Char.toUpper` over the
string's characters, which agrees with Python on all ASCII input.
-/

namespace GenCert

/-- Either the pretty-printed device record produced by the `try` body of
`get_device_details` (running `lsblk`, parsing its JSON and re-serializing
`details_json['blockdevices'][0]` with `indent=4`), or the exception that the
body raised, carried with its rendered message `str(e)`. The first four
constructors are the exception classes named in the `except` clause on
line 34 of `gen_cert.py`; `otherException` is any other `Exception`
(line 36). -/
inductive DeviceQueryResult where
  | ok (prettyDetails : String)
  | calledProcessError (msg : String)
  | fileNotFoundError (msg : String)
  | jsonDecodeError (msg : String)
  | indexError (msg : String)
  | otherException (msg : String)
deriving DecidableEq, Repr

/-- `get_device_details(device_path)` from `gen_cert.py` (lines 22-37):
returns the prettified lsblk record on success; converts the four
enumerated exception classes into the two-line message
`Could not retrieve device details for '<device_path>'.\nReason: <e>`;
converts any other exception into `An unexpected error occurred: <e>`. -/
def get_device_details (device_path : String) (r : DeviceQueryResult) : String :=
  match r with
  | .ok prettyDetails => prettyDetails
  | .calledProcessError e => "Could not retrieve device details for '" ++ device_path ++ "'.\nReason: " ++ e
  | .fileNotFoundError e => "Could not retrieve device details for '" ++ device_path ++ "'.\nReason: " ++ e
  | .jsonDecodeError e => "Could not retrieve device details for '" ++ device_path ++ "'.\nReason: " ++ e
  | .indexError e => "Could not retrieve device details for '" ++ device_path ++ "'.\nReason: " ++ e
  | .otherException e => "An unexpected error occurred: " ++ e

/-- Python `str.lower()` restricted to ASCII case conversion. -/
def pyLower (s : String) : String := ⟨s.data.map Char.toLower⟩

/-- Python `str.upper()` restricted to ASCII case conversion. -/
def pyUpper (s : String) : String := ⟨s.data.map Char.toUpper⟩

/-- The dry-run banner block assigned on lines 54-59 of `gen_cert.py`. -/
def dry_run_banner_text : String :=
  "\n        <div class=\"dry-run-banner\">\n            <h2>DRY RUN MODE</h2>\n            <p>This certificate was generated from a dry run. No destructive operations were performed on the device.</p>\n        </div>\n        "

/-- `dry_run_html_banner` as computed on lines 52-59: the banner block when
`mode.lower() == "dry"`, the empty string otherwise. -/
def dry_run_html_banner (mode : String) : String :=
  if pyLower mode = "dry" then dry_run_banner_text else ""

/-- Literal f-string text of `html_content` up to `{device_path}` (title). -/
def seg1 : String :=
  "\n    <!DOCTYPE html>\n    <html lang=\"en\">\n    <head>\n        <meta charset=\"UTF-8\">\n        <title>Secure Data Wipe Certificate for "

/-- Literal f-string text from after the title slot to `{dry_run_html_banner}`
(the embedded CSS; the doubled braces of the f-string denote literal braces,
written here as the escapes \x7b and \x7d). -/
def seg2 : String :=
  "</title>\n        <style>\n            body \x7b\n                font-family: sans-serif;\n                font-size: 12pt;\n                line-height: 1.5;\n                color: #333;\n            \x7d\n            .container \x7b\n                border: 2px solid #000;\n                padding: 20px 40px;\n                margin: 20px;\n            \x7d\n            h1 \x7b\n                text-align: center;\n                border-bottom: 2px solid #ccc;\n                padding-bottom: 10px;\n                margin-bottom: 20px;\n                font-size: 24pt;\n            \x7d\n            h2 \x7b\n                font-size: 16pt;\n                color: #555;\n                border-bottom: 1px solid #eee;\n                padding-bottom: 5px;\n            \x7d\n            .dry-run-banner \x7b\n                border: 3px dashed #d9534f;\n                background-color: #f2dede;\n                color: #a94442;\n                padding: 10px 20px;\n                text-align: center;\n                margin-bottom: 20px;\n            \x7d\n            .details-grid \x7b\n                display: grid;\n                grid-template-columns: 200px 1fr;\n                gap: 5px 20px;\n                margin-bottom: 20px;\n            \x7d\n            .details-grid b \x7b\n                font-weight: bold;\n            \x7d\n            .mono \x7b\n                font-family: monospace;\n                background-color: #f5f5f5;\n                padding: 15px;\n                border: 1px solid #ccc;\n                border-radius: 4px;\n                white-space: pre-wrap; /* Allows long lines to wrap */\n                word-wrap: break-word;\n            \x7d\n        </style>\n    </head>\n    <body>\n        <div class=\"container\">\n            "

/-- Literal f-string text from after the banner slot to `{timestamp}`. -/
def seg3 : String :=
  "\n            <h1>Secure Data Wipe Certificate</h1>\n\n            <h2>Operation Details</h2>\n            <div class=\"details-grid\">\n                <b>Wipe Timestamp (UTC):</b> <span>"

/-- Literal f-string text from after the timestamp slot to `{wipe_method}`. -/
def seg4 : String := "</span>\n                <b>Wipe Method Employed:</b> <span>"

/-- Literal f-string text from after the wipe-method slot to `{hostname}`. -/
def seg5 : String := "</span>\n                <b>Executing Hostname:</b> <span>"

/-- Literal f-string text from after the hostname slot to `{user}`. -/
def seg6 : String := "</span>\n                <b>Executing User:</b> <span>"

/-- Literal f-string text from after the user slot to `{mode.upper()}`. -/
def seg7 : String := "</span>\n                <b>Execution Mode:</b> <span>"

/-- Literal f-string text from after the mode slot to `{device_path}`
(Device Information block). -/
def seg8 : String :=
  "</span>\n            </div>\n\n            <h2>Device Information</h2>\n            <div class=\"details-grid\">\n                <b>Device Path:</b> <span>"

/-- Literal f-string text from after the device-path slot to `{device_details}`. -/
def seg9 : String := "</span>\n            </div>\n            <pre class=\"mono\">"

/-- Literal f-string text from after the device-details slot to `{verification_hash}`. -/
def seg10 : String :=
  "</pre>\n\n            <h2>Verification</h2>\n            <p>Post-wipe sample hash (SHA256) of the first 4096 bytes:</p>\n            <pre class=\"mono\">"

/-- Literal f-string text after the verification-hash slot to the end. -/
def seg11 : String := "</pre>\n        </div>\n    </body>\n    </html>\n    "

/-- Left-to-right concatenation of a list of string pieces; an f-string is
exactly such a concatenation of its literal segments and interpolated values. -/
def concatPieces : List String → String
  | [] => ""
  | p :: ps => p ++ concatPieces ps

/-- The f-string template of `html_content` (lines 62-147 of `gen_cert.py`),
as a function of the values interpolated into its eight slots (the banner
slot receives `dry_run_html_banner` and the mode slot receives
`mode.upper()`; `device_path` is interpolated twice). -/
def html_template (banner device_path wipe_method verification_hash modeUpper timestamp hostname user device_details : String) : String :=
  concatPieces [seg1, device_path, seg2, banner, seg3, timestamp, seg4, wipe_method,
    seg5, hostname, seg6, user, seg7, modeUpper, seg8, device_path, seg9,
    device_details, seg10, verification_hash, seg11]

/-- `html_content` as assembled in `generate_pdf_certificate`
(lines 52-147): the template instantiated with the conditional dry-run
banner and the uppercased mode. -/
def html_content (device_path wipe_method verification_hash mode timestamp hostname user device_details : String) : String :=
  html_template (dry_run_html_banner mode) device_path wipe_method
    verification_hash (pyUpper mode) timestamp hostname user device_details

/-- `output_filename = f"{output_base}_certificate.pdf"` (line 49). -/
def output_filename (output_base : String) : String := output_base ++ "_certificate.pdf"

/-- `user` resolution (lines 43-46): `os.getlogin()` if it succeeded
(`some u`), else the fallback `f"uid:{os.geteuid()}"`. -/
def resolveUser (loginResult : Option String) (euid : Nat) : String :=
  match loginResult with
  | some u => u
  | none => "uid:" ++ toString euid

/-- Outcomes of the external interactions `generate_pdf_certificate`
performs, supplied as an explicit environment: the captured timestamp and
hostname, the result of `os.getlogin()` (`none` models an `OSError`), the
effective uid, the outcome of the `lsblk` query, and the outcome of
`HTML(...).write_pdf(...)` (`some msg` models a raised exception with
message `str(e)`). -/
structure Env where
  timestamp : String
  hostname : String
  loginResult : Option String
  euid : Nat
  deviceQuery : DeviceQueryResult
  writeError : Option String
deriving DecidableEq, Repr

/-- Observable outcome of one run of the script: the derived output
filename, the assembled HTML, the filenames passed to `write_pdf` (in
order), the files actually created, the lines printed to stdout and
stderr, the process exit code, and whether the device was queried. -/
structure RunResult where
  outputFilename : String
  html : String
  writeAttempts : List String
  filesCreated : List String
  stdoutLines : List String
  stderrLines : List String
  exitCode : Nat
  queriedDevice : Bool
deriving DecidableEq, Repr

/-- `generate_pdf_certificate(device_path, output_base, wipe_method,
verification_hash, mode)` (lines 39-155): builds the HTML content and
attempts exactly one `write_pdf` call; on success prints a confirmation
and the process later exits 0, on a write exception prints a diagnostic
to stderr and exits 1 (`sys.exit(1)`, line 155). -/
def generate_pdf_certificate (env : Env) (device_path output_base wipe_method verification_hash mode : String) : RunResult :=
  let user := resolveUser env.loginResult env.euid
  let device_details := get_device_details device_path env.deviceQuery
  let fn := output_filename output_base
  let html := html_content device_path wipe_method verification_hash mode
    env.timestamp env.hostname user device_details
  match env.writeError with
  | none =>
      { outputFilename := fn
        html := html
        writeAttempts := [fn]
        filesCreated := [fn]
        stdoutLines := ["Successfully generated PDF certificate: " ++ fn]
        stderrLines := []
        exitCode := 0
        queriedDevice := true }
  | some e =>
      { outputFilename := fn
        html := html
        writeAttempts := [fn]
        filesCreated := []
        stdoutLines := []
        stderrLines := ["Error: Could not write PDF certificate '" ++ fn ++ "'. Reason: " ++ e]
        exitCode := 1
        queriedDevice := true }

/-- The usage line printed on line 159 of `gen_cert.py`. -/
def usage_message (argv0 : String) : String :=
  "Usage: " ++ argv0 ++ " <device_path> <output_base> \"<wipe_method>\" <verification_hash> <mode>"

/-- The `__main__` block (lines 157-163): `argv` is `sys.argv` (program
name followed by the arguments). If `len(sys.argv) != 6`, print the usage
message to stderr and exit 1 before any other work; otherwise destructure
`sys.argv[1:6]` and run `generate_pdf_certificate`. -/
def script_main (env : Env) (argv : List String) : RunResult :=
  if argv.length ≠ 6 then
    { outputFilename := ""
      html := ""
      writeAttempts := []
      filesCreated := []
      stdoutLines := []
      stderrLines := [usage_message (argv.getD 0 "")]
      exitCode := 1
      queriedDevice := false }
  else
    generate_pdf_certificate env (argv.getD 1 "") (argv.getD 2 "") (argv.getD 3 "")
      (argv.getD 4 "") (argv.getD 5 "")

/-- `pat` occurs as a contiguous substring of `s`. -/
def containsStr (s pat : String) : Prop := pat.data <:+: s.data

instance (s pat : String) : Decidable (containsStr s pat) :=
  inferInstanceAs (Decidable (pat.data <:+: s.data))

end GenCert

namespace GenCert

set_option maxRecDepth 4000

/-- `Char.ofNat` is a left inverse of `Char.toNat` on valid scalar values
below the surrogate range. -/
theorem char_toNat_ofNat (n : Nat) (h : n < 55296) : (Char.ofNat n).toNat = n := by
  simp [Char.ofNat, Nat.isValidChar, dif_pos (Or.inl h), Char.ofNatAux, Char.toNat,
    UInt32.toNat, BitVec.toNat_ofNatLt]

/-- If ASCII lowercasing sends `c` to the lowercase letter `d`, then `c` and
`d` have the same uppercasing. -/
theorem toUpper_toLower_congr {c d : Char} (hd1 : 97 ≤ d.toNat) (hd2 : d.toNat ≤ 122)
    (h : Char.toLower c = d) : Char.toUpper c = Char.toUpper d := by
  unfold Char.toLower at h
  by_cases hc : c.toNat ≥ 65 ∧ c.toNat ≤ 90
  · rw [if_pos hc] at h
    have h2 : c.toNat + 32 = d.toNat := by
      have h3 := congrArg Char.toNat h
      rwa [char_toNat_ofNat _ (by omega)] at h3
    unfold Char.toUpper
    rw [if_neg (by omega), if_pos (by omega)]
    have h4 : d.toNat - 32 = c.toNat := by omega
    rw [h4, Char.ofNat_toNat]
  · rw [if_neg hc] at h
    rw [h]

/-- A string whose Python-style lowercasing is `"dry"` has Python-style
uppercasing `"DRY"`. -/
theorem pyUpper_of_pyLower_dry {m : String} (h : pyLower m = "dry") : pyUpper m = "DRY" := by
  have hl : m.data.map Char.toLower = ['d', 'r', 'y'] := congrArg String.data h
  rcases hm : m.data with _ | ⟨a, _ | ⟨b, _ | ⟨c, _ | ⟨d, t⟩⟩⟩⟩ <;> rw [hm] at hl <;> simp at hl
  obtain ⟨ha, hb, hc⟩ := hl
  show (⟨(m.data.map Char.toUpper : List Char)⟩ : String) = "DRY"
  rw [hm]
  simp only [List.map]
  rw [toUpper_toLower_congr (by decide) (by decide) ha,
      toUpper_toLower_congr (by decide) (by decide) hb,
      toUpper_toLower_congr (by decide) (by decide) hc]
  rfl

theorem concatPieces_append (a b : List String) :
    concatPieces (a ++ b) = concatPieces a ++ concatPieces b := by
  induction a with
  | nil => simp [concatPieces]
  | cons p ps ih => simp [concatPieces, ih, String.append_assoc]

/-- A contiguous run of pieces yields a contiguous substring of the
concatenation. -/
theorem containsStr_concatPieces_of_infix {qs ps : List String} (h : qs <:+: ps) :
    containsStr (concatPieces ps) (concatPieces qs) := by
  obtain ⟨s, t, rfl⟩ := h
  unfold containsStr
  rw [concatPieces_append, concatPieces_append]
  simp [String.data_append]

theorem concatPieces_triple (a b c : String) : concatPieces [a, b, c] = a ++ b ++ c := by
  simp [concatPieces, String.append_assoc]

/-- Characters of a substring occur in the enclosing string. -/
theorem mem_data_of_containsStr {s pat : String} {c : Char}
    (h : containsStr s pat) (hc : c ∈ pat.data) : c ∈ s.data := h.subset hc

theorem not_containsStr_of_not_mem {s pat : String} {c : Char}
    (hc : c ∈ pat.data) (hs : c ∉ s.data) : ¬ containsStr s pat :=
  fun h => hs (h.subset hc)

end GenCert

namespace GenCert

set_option maxRecDepth 4000

theorem generate_html (env : Env) (dp ob wm vh mode : String) :
    (generate_pdf_certificate env dp ob wm vh mode).html
      = html_content dp wm vh mode env.timestamp env.hostname
          (resolveUser env.loginResult env.euid) (get_device_details dp env.deviceQuery) := by
  unfold generate_pdf_certificate
  cases env.writeError <;> rfl

theorem generate_outputFilename (env : Env) (dp ob wm vh mode : String) :
    (generate_pdf_certificate env dp ob wm vh mode).outputFilename = output_filename ob := by
  unfold generate_pdf_certificate
  cases env.writeError <;> rfl

theorem generate_writeAttempts (env : Env) (dp ob wm vh mode : String) :
    (generate_pdf_certificate env dp ob wm vh mode).writeAttempts = [output_filename ob] := by
  unfold generate_pdf_certificate
  cases env.writeError <;> rfl

theorem generate_queriedDevice (env : Env) (dp ob wm vh mode : String) :
    (generate_pdf_certificate env dp ob wm vh mode).queriedDevice = true := by
  unfold generate_pdf_certificate
  cases env.writeError <;> rfl

theorem containsStr_triple_of_infix {ps : List String} {a b c : String}
    (h : [a, b, c] <:+: ps) : containsStr (concatPieces ps) (a ++ b ++ c) := by
  have h2 := containsStr_concatPieces_of_infix h
  rwa [concatPieces_triple] at h2

end GenCert

namespace GenCert

set_option maxRecDepth 4000

/-- C1 (amended): every caller-supplied and queried string — the device
path (in both its slots), the wipe method, the verification hash, the
uppercased mode, and the queried device-descriptor text, as well as the
timestamp, hostname and resolved user — is inserted into the rendered HTML
verbatim between the adjacent literal template segments, with no escaping
of document-structure-significant characters. -/
theorem html_inputs_inserted_verbatim (env : Env) (device_path output_base wipe_method verification_hash mode : String) :
    containsStr (generate_pdf_certificate env device_path output_base wipe_method verification_hash mode).html
      (seg1 ++ device_path ++ seg2)
    ∧ containsStr (generate_pdf_certificate env device_path output_base wipe_method verification_hash mode).html
      (seg3 ++ env.timestamp ++ seg4)
    ∧ containsStr (generate_pdf_certificate env device_path output_base wipe_method verification_hash mode).html
      (seg4 ++ wipe_method ++ seg5)
    ∧ containsStr (generate_pdf_certificate env device_path output_base wipe_method verification_hash mode).html
      (seg5 ++ env.hostname ++ seg6)
    ∧ containsStr (generate_pdf_certificate env device_path output_base wipe_method verification_hash mode).html
      (seg6 ++ resolveUser env.loginResult env.euid ++ seg7)
    ∧ containsStr (generate_pdf_certificate env device_path output_base wipe_method verification_hash mode).html
      (seg7 ++ pyUpper mode ++ seg8)
    ∧ containsStr (generate_pdf_certificate env device_path output_base wipe_method verification_hash mode).html
      (seg8 ++ device_path ++ seg9)
    ∧ containsStr (generate_pdf_certificate env device_path output_base wipe_method verification_hash mode).html
      (seg9 ++ get_device_details device_path env.deviceQuery ++ seg10)
    ∧ containsStr (generate_pdf_certificate env device_path output_base wipe_method verification_hash mode).html
      (seg10 ++ verification_hash ++ seg11) := by
  rw [generate_html]
  refine ⟨?_, ?_, ?_, ?_, ?_, ?_, ?_, ?_, ?_⟩
  · exact containsStr_triple_of_infix
      ⟨[], [dry_run_html_banner mode, seg3, env.timestamp, seg4, wipe_method, seg5, env.hostname,
        seg6, resolveUser env.loginResult env.euid, seg7, pyUpper mode, seg8, device_path, seg9,
        get_device_details device_path env.deviceQuery, seg10, verification_hash, seg11], rfl⟩
  · exact containsStr_triple_of_infix
      ⟨[seg1, device_path, seg2, dry_run_html_banner mode], [wipe_method, seg5, env.hostname,
        seg6, resolveUser env.loginResult env.euid, seg7, pyUpper mode, seg8, device_path, seg9,
        get_device_details device_path env.deviceQuery, seg10, verification_hash, seg11], rfl⟩
  · exact containsStr_triple_of_infix
      ⟨[seg1, device_path, seg2, dry_run_html_banner mode, seg3, env.timestamp], [env.hostname,
        seg6, resolveUser env.loginResult env.euid, seg7, pyUpper mode, seg8, device_path, seg9,
        get_device_details device_path env.deviceQuery, seg10, verification_hash, seg11], rfl⟩
  · exact containsStr_triple_of_infix
      ⟨[seg1, device_path, seg2, dry_run_html_banner mode, seg3, env.timestamp, seg4, wipe_method],
        [resolveUser env.loginResult env.euid, seg7, pyUpper mode, seg8, device_path, seg9,
        get_device_details device_path env.deviceQuery, seg10, verification_hash, seg11], rfl⟩
  · exact containsStr_triple_of_infix
      ⟨[seg1, device_path, seg2, dry_run_html_banner mode, seg3, env.timestamp, seg4, wipe_method,
        seg5, env.hostname], [pyUpper mode, seg8, device_path, seg9,
        get_device_details device_path env.deviceQuery, seg10, verification_hash, seg11], rfl⟩
  · exact containsStr_triple_of_infix
      ⟨[seg1, device_path, seg2, dry_run_html_banner mode, seg3, env.timestamp, seg4, wipe_method,
        seg5, env.hostname, seg6, resolveUser env.loginResult env.euid], [device_path, seg9,
        get_device_details device_path env.deviceQuery, seg10, verification_hash, seg11], rfl⟩
  · exact containsStr_triple_of_infix
      ⟨[seg1, device_path, seg2, dry_run_html_banner mode, seg3, env.timestamp, seg4, wipe_method,
        seg5, env.hostname, seg6, resolveUser env.loginResult env.euid, seg7, pyUpper mode],
        [get_device_details device_path env.deviceQuery, seg10, verification_hash, seg11], rfl⟩
  · exact containsStr_triple_of_infix
      ⟨[seg1, device_path, seg2, dry_run_html_banner mode, seg3, env.timestamp, seg4, wipe_method,
        seg5, env.hostname, seg6, resolveUser env.loginResult env.euid, seg7, pyUpper mode, seg8,
        device_path], [verification_hash, seg11], rfl⟩
  · exact containsStr_triple_of_infix
      ⟨[seg1, device_path, seg2, dry_run_html_banner mode, seg3, env.timestamp, seg4, wipe_method,
        seg5, env.hostname, seg6, resolveUser env.loginResult env.euid, seg7, pyUpper mode, seg8,
        device_path, seg9, get_device_details device_path env.deviceQuery], [], rfl⟩

/-- C1 (counterexample): with the wipe method `<b>hack</b>`, the rendered
HTML contains that input verbatim between the literal template segments,
and contains no ampersand at all, so no character of any input was
neutralized by entity escaping. -/
theorem html_no_escaping_counterexample :
    containsStr (html_content "/dev/sda" "<b>hack</b>" "deadbeef" "real" "TS" "HN" "US" "DD")
      (seg4 ++ "<b>hack</b>" ++ seg5)
    ∧ ¬ ('&' ∈ (html_content "/dev/sda" "<b>hack</b>" "deadbeef" "real" "TS" "HN" "US" "DD").data) := by
  constructor
  · exact containsStr_triple_of_infix
      ⟨[seg1, "/dev/sda", seg2, dry_run_html_banner "real", seg3, "TS"],
        ["HN", seg6, "US", seg7, pyUpper "real", seg8, "/dev/sda", seg9, "DD", seg10,
        "deadbeef", seg11], rfl⟩
  · decide

end GenCert

namespace GenCert

set_option maxRecDepth 4000

/-- C2 (counterexample): on a `FileNotFoundError`, the returned message
contains a newline, so it is not a one-line string, and it does not contain
the claimed one-line juxtaposition `'. Reason: ` — the period and the
`Reason:` label are on different lines. -/
theorem device_failure_message_not_one_line :
    get_device_details "/dev/sdz99" (.fileNotFoundError "[Errno 2] No such file or directory: 'lsblk'")
      = "Could not retrieve device details for '/dev/sdz99'.\nReason: [Errno 2] No such file or directory: 'lsblk'"
    ∧ '\n' ∈ (get_device_details "/dev/sdz99" (.fileNotFoundError "[Errno 2] No such file or directory: 'lsblk'")).data
    ∧ ¬ containsStr (get_device_details "/dev/sdz99" (.fileNotFoundError "[Errno 2] No such file or directory: 'lsblk'"))
        "'. Reason: " := by
  exact ⟨rfl, by decide, by decide⟩

/-- C2 (amended): for each of the four enumerated failure kinds of the
device query (non-zero exit, tool missing, unparseable JSON, missing
record), `get_device_details` returns — instead of raising — the two-line
descriptive string `Could not retrieve device details for
'<devicePath>'.` followed on the next line by `Reason: <cause>`, and the
certificate is still generated, with that message embedded in the
device-details slot of the document and the single output write still
attempted. -/
theorem device_failure_degrades_gracefully (env : Env)
    (device_path output_base wipe_method verification_hash mode cause : String)
    (h : env.deviceQuery = .calledProcessError cause ∨ env.deviceQuery = .fileNotFoundError cause
       ∨ env.deviceQuery = .jsonDecodeError cause ∨ env.deviceQuery = .indexError cause) :
    get_device_details device_path env.deviceQuery
      = "Could not retrieve device details for '" ++ device_path ++ "'.\nReason: " ++ cause
    ∧ containsStr (generate_pdf_certificate env device_path output_base wipe_method verification_hash mode).html
        (seg9 ++ ("Could not retrieve device details for '" ++ device_path ++ "'.\nReason: " ++ cause) ++ seg10)
    ∧ (generate_pdf_certificate env device_path output_base wipe_method verification_hash mode).writeAttempts
        = [output_filename output_base] := by
  have hmsg : get_device_details device_path env.deviceQuery
      = "Could not retrieve device details for '" ++ device_path ++ "'.\nReason: " ++ cause := by
    rcases h with h | h | h | h <;> rw [h] <;> rfl
  refine ⟨hmsg, ?_, generate_writeAttempts env device_path output_base wipe_method verification_hash mode⟩
  rw [generate_html, ← hmsg]
  exact containsStr_triple_of_infix
    ⟨[seg1, device_path, seg2, dry_run_html_banner mode, seg3, env.timestamp, seg4, wipe_method,
      seg5, env.hostname, seg6, resolveUser env.loginResult env.euid, seg7, pyUpper mode, seg8,
      device_path], [verification_hash, seg11], rfl⟩

/-- C2 (witness): concrete instance of `device_failure_degrades_gracefully`
for a missing `lsblk` tool. -/
theorem device_failure_degrades_gracefully_witness :
    get_device_details "/dev/sdz99" (.fileNotFoundError "lsblk missing")
      = "Could not retrieve device details for '/dev/sdz99'.\nReason: lsblk missing"
    ∧ containsStr (generate_pdf_certificate ⟨"TS", "HN", some "alice", 0, .fileNotFoundError "lsblk missing", none⟩
          "/dev/sdz99" "job42" "NIST 800-88 Purge" "a1b2c3" "dry").html
        (seg9 ++ ("Could not retrieve device details for '/dev/sdz99'.\nReason: lsblk missing") ++ seg10)
    ∧ (generate_pdf_certificate ⟨"TS", "HN", some "alice", 0, .fileNotFoundError "lsblk missing", none⟩
          "/dev/sdz99" "job42" "NIST 800-88 Purge" "a1b2c3" "dry").writeAttempts
        = [output_filename "job42"] :=
  device_failure_degrades_gracefully
    ⟨"TS", "HN", some "alice", 0, .fileNotFoundError "lsblk missing", none⟩
    "/dev/sdz99" "job42" "NIST 800-88 Purge" "a1b2c3" "dry" "lsblk missing"
    (Or.inr (Or.inl rfl))

/-- C3: if the input mode lowercases to `dry` then the document is the
template instantiated with the dry-run banner and the displayed mode
`DRY`, and it contains the banner; for any other input mode the banner
slot is empty (the document equals the template with no banner) and the
document displays the literal uppercased input in the execution-mode
slot. -/
theorem mode_dry_selects_banner (device_path wipe_method verification_hash mode timestamp hostname user device_details : String) :
    (pyLower mode = "dry" →
      html_content device_path wipe_method verification_hash mode timestamp hostname user device_details
        = html_template dry_run_banner_text device_path wipe_method verification_hash "DRY"
            timestamp hostname user device_details
      ∧ containsStr (html_content device_path wipe_method verification_hash mode timestamp hostname user device_details)
          dry_run_banner_text)
    ∧ (pyLower mode ≠ "dry" →
      html_content device_path wipe_method verification_hash mode timestamp hostname user device_details
        = html_template "" device_path wipe_method verification_hash (pyUpper mode)
            timestamp hostname user device_details
      ∧ containsStr (html_content device_path wipe_method verification_hash mode timestamp hostname user device_details)
          (seg7 ++ pyUpper mode ++ seg8)) := by
  constructor
  · intro h
    have hb : dry_run_html_banner mode = dry_run_banner_text := by
      rw [dry_run_html_banner, if_pos h]
    constructor
    · rw [html_content, hb, pyUpper_of_pyLower_dry h]
    · rw [html_content, hb]
      have h2 := containsStr_concatPieces_of_infix
        (⟨[seg1, device_path, seg2], [seg3, timestamp, seg4, wipe_method, seg5, hostname, seg6,
          user, seg7, pyUpper mode, seg8, device_path, seg9, device_details, seg10,
          verification_hash, seg11], rfl⟩ :
          [dry_run_banner_text] <:+: [seg1, device_path, seg2, dry_run_banner_text, seg3,
            timestamp, seg4, wipe_method, seg5, hostname, seg6, user, seg7, pyUpper mode, seg8,
            device_path, seg9, device_details, seg10, verification_hash, seg11])
      simpa [concatPieces] using h2
  · intro h
    have hb : dry_run_html_banner mode = "" := by
      rw [dry_run_html_banner, if_neg h]
    constructor
    · rw [html_content, hb]
    · rw [html_content]
      exact containsStr_triple_of_infix
        ⟨[seg1, device_path, seg2, dry_run_html_banner mode, seg3, timestamp, seg4, wipe_method,
          seg5, hostname, seg6, user], [device_path, seg9, device_details, seg10,
          verification_hash, seg11], rfl⟩

/-- C3 (witness): `mode_dry_selects_banner` applied at the concrete modes
`Dry` and `foo`. -/
theorem mode_dry_selects_banner_witness :
    (html_content "/dev/sda" "m" "h" "Dry" "TS" "HN" "US" "DD"
        = html_template dry_run_banner_text "/dev/sda" "m" "h" "DRY" "TS" "HN" "US" "DD"
      ∧ containsStr (html_content "/dev/sda" "m" "h" "Dry" "TS" "HN" "US" "DD") dry_run_banner_text)
    ∧ (html_content "/dev/sda" "m" "h" "foo" "TS" "HN" "US" "DD"
        = html_template "" "/dev/sda" "m" "h" (pyUpper "foo") "TS" "HN" "US" "DD"
      ∧ containsStr (html_content "/dev/sda" "m" "h" "foo" "TS" "HN" "US" "DD")
          (seg7 ++ pyUpper "foo" ++ seg8)) :=
  ⟨(mode_dry_selects_banner "/dev/sda" "m" "h" "Dry" "TS" "HN" "US" "DD").1 (by decide),
   (mode_dry_selects_banner "/dev/sda" "m" "h" "foo" "TS" "HN" "US" "DD").2 (by decide)⟩

end GenCert

namespace GenCert

set_option maxRecDepth 4000

/-- C4 (counterexample): with input mode `foo` the document displays `FOO`
in the execution-mode slot and the string `REAL` appears nowhere in the
document, so the mode is not treated as REAL for display purposes. -/
theorem mode_foo_not_displayed_as_real :
    containsStr (html_content "/dev/sda" "method" "hash" "foo" "TS" "HN" "US" "DD")
      (seg7 ++ "FOO" ++ seg8)
    ∧ ¬ containsStr (html_content "/dev/sda" "method" "hash" "foo" "TS" "HN" "US" "DD") "REAL" := by
  constructor
  · have h := containsStr_triple_of_infix
      (⟨[seg1, "/dev/sda", seg2, dry_run_html_banner "foo", seg3, "TS", seg4, "method", seg5,
        "HN", seg6, "US"], ["/dev/sda", seg9, "DD", seg10, "hash", seg11], rfl⟩ :
        [seg7, pyUpper "foo", seg8] <:+: [seg1, "/dev/sda", seg2, dry_run_html_banner "foo",
          seg3, "TS", seg4, "method", seg5, "HN", seg6, "US", seg7, pyUpper "foo", seg8,
          "/dev/sda", seg9, "DD", seg10, "hash", seg11])
    have hf : pyUpper "foo" = "FOO" := by decide
    rwa [hf] at h
  · exact not_containsStr_of_not_mem (c := 'R') (by decide) (by decide)

/-- C4 (amended): for every input mode string that is not `dry`
case-insensitively, the document omits the dry-run banner (the banner slot
is empty) and displays the literal uppercased input — not REAL — as the
execution mode. -/
theorem mode_other_displays_literal_uppercase (device_path wipe_method verification_hash mode timestamp hostname user device_details : String)
    (h : pyLower mode ≠ "dry") :
    html_content device_path wipe_method verification_hash mode timestamp hostname user device_details
      = html_template "" device_path wipe_method verification_hash (pyUpper mode)
          timestamp hostname user device_details
    ∧ containsStr (html_content device_path wipe_method verification_hash mode timestamp hostname user device_details)
        (seg7 ++ pyUpper mode ++ seg8) := by
  have hb : dry_run_html_banner mode = "" := by
    rw [dry_run_html_banner, if_neg h]
  constructor
  · rw [html_content, hb]
  · rw [html_content]
    exact containsStr_triple_of_infix
      ⟨[seg1, device_path, seg2, dry_run_html_banner mode, seg3, timestamp, seg4, wipe_method,
        seg5, hostname, seg6, user], [device_path, seg9, device_details, seg10,
        verification_hash, seg11], rfl⟩

/-- C4 (witness): `mode_other_displays_literal_uppercase` at mode `foo`. -/
theorem mode_other_displays_literal_uppercase_witness :
    html_content "/dev/sda" "m" "h" "foo" "TS" "HN" "US" "DD"
      = html_template "" "/dev/sda" "m" "h" (pyUpper "foo") "TS" "HN" "US" "DD"
    ∧ containsStr (html_content "/dev/sda" "m" "h" "foo" "TS" "HN" "US" "DD")
        (seg7 ++ pyUpper "foo" ++ seg8) :=
  mode_other_displays_literal_uppercase "/dev/sda" "m" "h" "foo" "TS" "HN" "US" "DD" (by decide)

/-- C5: for every invocation, the output filename is derived
deterministically from the output base as `<outputBase>_certificate.pdf`,
exactly one write is attempted (at that filename), and when the write
succeeds exactly that one file is created. -/
theorem single_output_file_deterministic_name (env : Env) (device_path output_base wipe_method verification_hash mode : String)
    (h : env.writeError = none) :
    (generate_pdf_certificate env device_path output_base wipe_method verification_hash mode).outputFilename
      = output_base ++ "_certificate.pdf"
    ∧ (generate_pdf_certificate env device_path output_base wipe_method verification_hash mode).writeAttempts
      = [output_base ++ "_certificate.pdf"]
    ∧ (generate_pdf_certificate env device_path output_base wipe_method verification_hash mode).filesCreated
      = [output_base ++ "_certificate.pdf"] := by
  unfold generate_pdf_certificate
  rw [h]
  exact ⟨rfl, rfl, rfl⟩

/-- C5 (witness): concrete successful invocation. -/
theorem single_output_file_deterministic_name_witness :
    (generate_pdf_certificate ⟨"TS", "HN", some "alice", 0, .ok "DETAILS", none⟩
        "/dev/sda" "job42" "m" "h" "real").outputFilename = "job42" ++ "_certificate.pdf"
    ∧ (generate_pdf_certificate ⟨"TS", "HN", some "alice", 0, .ok "DETAILS", none⟩
        "/dev/sda" "job42" "m" "h" "real").writeAttempts = ["job42" ++ "_certificate.pdf"]
    ∧ (generate_pdf_certificate ⟨"TS", "HN", some "alice", 0, .ok "DETAILS", none⟩
        "/dev/sda" "job42" "m" "h" "real").filesCreated = ["job42" ++ "_certificate.pdf"] :=
  single_output_file_deterministic_name ⟨"TS", "HN", some "alice", 0, .ok "DETAILS", none⟩
    "/dev/sda" "job42" "m" "h" "real" rfl

/-- C6: for every invocation whose argument count differs from five, the
script exits with status 1 (non-zero), prints the usage message on stderr,
attempts no write, creates no file, and never queries the device. -/
theorem wrong_arg_count_fails_fast (env : Env) (prog : String) (args : List String)
    (h : args.length ≠ 5) :
    (script_main env (prog :: args)).exitCode = 1
    ∧ (script_main env (prog :: args)).exitCode ≠ 0
    ∧ (script_main env (prog :: args)).stderrLines = [usage_message prog]
    ∧ (script_main env (prog :: args)).writeAttempts = []
    ∧ (script_main env (prog :: args)).filesCreated = []
    ∧ (script_main env (prog :: args)).queriedDevice = false := by
  have hlen : (prog :: args).length ≠ 6 := by
    simp only [List.length_cons]
    omega
  unfold script_main
  rw [if_pos hlen]
  exact ⟨rfl, Nat.one_ne_zero, rfl, rfl, rfl, rfl⟩

/-- C6 (witness): invocation with four arguments (missing mode). -/
theorem wrong_arg_count_fails_fast_witness :
    (script_main ⟨"TS", "HN", some "alice", 0, .ok "DETAILS", none⟩
        ("gen_cert.py" :: ["/dev/sdz99", "job42", "m", "h"])).exitCode = 1
    ∧ (script_main ⟨"TS", "HN", some "alice", 0, .ok "DETAILS", none⟩
        ("gen_cert.py" :: ["/dev/sdz99", "job42", "m", "h"])).exitCode ≠ 0
    ∧ (script_main ⟨"TS", "HN", some "alice", 0, .ok "DETAILS", none⟩
        ("gen_cert.py" :: ["/dev/sdz99", "job42", "m", "h"])).stderrLines
      = [usage_message "gen_cert.py"]
    ∧ (script_main ⟨"TS", "HN", some "alice", 0, .ok "DETAILS", none⟩
        ("gen_cert.py" :: ["/dev/sdz99", "job42", "m", "h"])).writeAttempts = []
    ∧ (script_main ⟨"TS", "HN", some "alice", 0, .ok "DETAILS", none⟩
        ("gen_cert.py" :: ["/dev/sdz99", "job42", "m", "h"])).filesCreated = []
    ∧ (script_main ⟨"TS", "HN", some "alice", 0, .ok "DETAILS", none⟩
        ("gen_cert.py" :: ["/dev/sdz99", "job42", "m", "h"])).queriedDevice = false :=
  wrong_arg_count_fails_fast ⟨"TS", "HN", some "alice", 0, .ok "DETAILS", none⟩
    "gen_cert.py" ["/dev/sdz99", "job42", "m", "h"] (by decide)

end GenCert

namespace GenCert

set_option maxRecDepth 4000

/-- C7: with a valid five-argument invocation, the run exits 0 and prints
a confirmation referencing the written filename exactly when the write
succeeds; when the write raises, the run exits 1 with a diagnostic on
stderr; the exit status is non-zero if and only if the write failed, and
it does not depend on the device-query outcome. -/
theorem exit_zero_iff_write_succeeds (env : Env) (device_path output_base wipe_method verification_hash mode : String) :
    (env.writeError = none →
      (generate_pdf_certificate env device_path output_base wipe_method verification_hash mode).exitCode = 0
      ∧ (generate_pdf_certificate env device_path output_base wipe_method verification_hash mode).stdoutLines
          = ["Successfully generated PDF certificate: " ++ output_filename output_base]
      ∧ (generate_pdf_certificate env device_path output_base wipe_method verification_hash mode).stderrLines = [])
    ∧ (∀ e, env.writeError = some e →
      (generate_pdf_certificate env device_path output_base wipe_method verification_hash mode).exitCode = 1
      ∧ (generate_pdf_certificate env device_path output_base wipe_method verification_hash mode).stderrLines
          = ["Error: Could not write PDF certificate '" ++ output_filename output_base ++ "'. Reason: " ++ e]
      ∧ (generate_pdf_certificate env device_path output_base wipe_method verification_hash mode).stdoutLines = [])
    ∧ ((generate_pdf_certificate env device_path output_base wipe_method verification_hash mode).exitCode ≠ 0
        ↔ env.writeError ≠ none)
    ∧ (∀ q : DeviceQueryResult,
      (generate_pdf_certificate { env with deviceQuery := q } device_path output_base wipe_method verification_hash mode).exitCode
        = (generate_pdf_certificate env device_path output_base wipe_method verification_hash mode).exitCode) := by
  refine ⟨?_, ?_, ?_, ?_⟩
  · intro h
    unfold generate_pdf_certificate
    rw [h]
    exact ⟨rfl, rfl, rfl⟩
  · intro e h
    unfold generate_pdf_certificate
    rw [h]
    exact ⟨rfl, rfl, rfl⟩
  · unfold generate_pdf_certificate
    rcases h : env.writeError with _ | e <;> simp [h]
  · intro q
    unfold generate_pdf_certificate
    cases env.writeError <;> rfl

/-- C7 (witness): `exit_zero_iff_write_succeeds` at a successful write and
at a failed write. -/
theorem exit_zero_iff_write_succeeds_witness :
    ((generate_pdf_certificate ⟨"TS", "HN", some "alice", 0, .ok "DETAILS", none⟩
        "/dev/sda" "job42" "m" "h" "real").exitCode = 0
      ∧ (generate_pdf_certificate ⟨"TS", "HN", some "alice", 0, .ok "DETAILS", none⟩
          "/dev/sda" "job42" "m" "h" "real").stdoutLines
        = ["Successfully generated PDF certificate: " ++ output_filename "job42"]
      ∧ (generate_pdf_certificate ⟨"TS", "HN", some "alice", 0, .ok "DETAILS", none⟩
          "/dev/sda" "job42" "m" "h" "real").stderrLines = [])
    ∧ ((generate_pdf_certificate ⟨"TS", "HN", some "alice", 0, .ok "DETAILS", some "disk full"⟩
        "/dev/sda" "job42" "m" "h" "real").exitCode = 1
      ∧ (generate_pdf_certificate ⟨"TS", "HN", some "alice", 0, .ok "DETAILS", some "disk full"⟩
          "/dev/sda" "job42" "m" "h" "real").stderrLines
        = ["Error: Could not write PDF certificate '" ++ output_filename "job42" ++ "'. Reason: disk full"]
      ∧ (generate_pdf_certificate ⟨"TS", "HN", some "alice", 0, .ok "DETAILS", some "disk full"⟩
          "/dev/sda" "job42" "m" "h" "real").stdoutLines = []) :=
  ⟨(exit_zero_iff_write_succeeds ⟨"TS", "HN", some "alice", 0, .ok "DETAILS", none⟩
      "/dev/sda" "job42" "m" "h" "real").1 rfl,
   ((exit_zero_iff_write_succeeds ⟨"TS", "HN", some "alice", 0, .ok "DETAILS", some "disk full"⟩
      "/dev/sda" "job42" "m" "h" "real").2.1 "disk full" rfl)⟩

/-- C8: when OS login-identity resolution fails, the operator identity is
the fallback `uid:<euid>` and the certificate records it in the
executing-user slot; identity resolution is total and, given that a
successful `os.getlogin()` returns a non-empty login name, always yields a
non-empty string. -/
theorem operator_identity_fallback (env : Env) (device_path output_base wipe_method verification_hash mode : String)
    (hne : ∀ u, env.loginResult = some u → u ≠ "") :
    (env.loginResult = none →
      resolveUser env.loginResult env.euid = "uid:" ++ toString env.euid
      ∧ containsStr (generate_pdf_certificate env device_path output_base wipe_method verification_hash mode).html
          (seg6 ++ ("uid:" ++ toString env.euid) ++ seg7))
    ∧ resolveUser env.loginResult env.euid ≠ "" := by
  constructor
  · intro h
    have hu : resolveUser env.loginResult env.euid = "uid:" ++ toString env.euid := by
      rw [h]
      rfl
    refine ⟨hu, ?_⟩
    rw [generate_html, ← hu]
    exact containsStr_triple_of_infix
      ⟨[seg1, device_path, seg2, dry_run_html_banner mode, seg3, env.timestamp, seg4,
        wipe_method, seg5, env.hostname], [pyUpper mode, seg8, device_path, seg9,
        get_device_details device_path env.deviceQuery, seg10, verification_hash, seg11], rfl⟩
  · rcases hl : env.loginResult with _ | u
    · intro hcon
      have hd := congrArg String.data hcon
      simp [resolveUser, String.data_append] at hd
    · simpa [resolveUser] using hne u hl

/-- C8 (witness): `operator_identity_fallback` with login resolution
failing and effective uid 1000. -/
theorem operator_identity_fallback_witness :
    (resolveUser none 1000 = "uid:" ++ toString 1000
      ∧ containsStr (generate_pdf_certificate ⟨"TS", "HN", none, 1000, .ok "DETAILS", none⟩
            "/dev/sda" "job42" "m" "h" "real").html
          (seg6 ++ ("uid:" ++ toString 1000) ++ seg7))
    ∧ resolveUser none 1000 ≠ "" :=
  ⟨(operator_identity_fallback ⟨"TS", "HN", none, 1000, .ok "DETAILS", none⟩
      "/dev/sda" "job42" "m" "h" "real" (fun _ h => nomatch h)).1 rfl,
   (operator_identity_fallback ⟨"TS", "HN", none, 1000, .ok "DETAILS", none⟩
      "/dev/sda" "job42" "m" "h" "real" (fun _ h => nomatch h)).2⟩

/-- C9: device inspection is total in the embedding, and for any exception
outside the four enumerated classes the returned string is
`An unexpected error occurred: <cause>`, which is independent of (and so
does not mention) the device path. -/
theorem unexpected_error_total_and_path_free (device_path otherPath cause : String) :
    get_device_details device_path (.otherException cause)
      = "An unexpected error occurred: " ++ cause
    ∧ get_device_details device_path (.otherException cause)
      = get_device_details otherPath (.otherException cause) :=
  ⟨rfl, rfl⟩

/-- C10: the empty output base is not rejected: the six-element argv with
an empty `outputBase` passes the arity check, the run proceeds to the
device query and to rendering, and the derived output filename is
`_certificate.pdf`. -/
theorem empty_output_base_accepted (env : Env) (prog device_path wipe_method verification_hash mode : String) :
    script_main env [prog, device_path, "", wipe_method, verification_hash, mode]
      = generate_pdf_certificate env device_path "" wipe_method verification_hash mode
    ∧ (script_main env [prog, device_path, "", wipe_method, verification_hash, mode]).outputFilename
      = "_certificate.pdf"
    ∧ (script_main env [prog, device_path, "", wipe_method, verification_hash, mode]).writeAttempts
      = ["_certificate.pdf"]
    ∧ (script_main env [prog, device_path, "", wipe_method, verification_hash, mode]).queriedDevice
      = true := by
  have h1 : script_main env [prog, device_path, "", wipe_method, verification_hash, mode]
      = generate_pdf_certificate env device_path "" wipe_method verification_hash mode := by
    unfold script_main
    rw [if_neg (by simp)]
    rfl
  refine ⟨h1, ?_, ?_, ?_⟩
  · rw [h1, generate_outputFilename]
    rfl
  · rw [h1, generate_writeAttempts]
    rfl
  · rw [h1]
    exact generate_queriedDevice env device_path "" wipe_method verification_hash mode

end GenCert
